import Mathlib

/-
Shallow embedding of the in-workload coordination runtime from
src/kubernetes/kubernetes.go: the Runner (RPC server coordinating the
checkout, command and sidecar containers of a build job) and its client
stub. Go channels used as once-only latches (started, done, interrupt)
are modelled as Booleans; the registry map[int]*clientResult, whose
domain is always {0 .. ClientCount-1} (it is built by New and never
resized), is modelled as a List ClientResult indexed by participant ID.
The gob/HTTP transport is out of scope: RPC handlers are functions from
the Runner state and the request to the new state and the reply.
-/

namespace Agent

/-- Participant state, from the clientState enum: stateUnknown,
stateConnected, stateExited. -/
inductive ClientState where
  | unknown
  | connected
  | exited
deriving DecidableEq, Repr

/-- Wait-status value, from the waitStatus struct used on the wire
(fields Code int, SignalCode *int); process.WaitStatus exposes
ExitStatus() = Code. -/
structure WaitStatus where
  code : Int
  signalCode : Option Int
deriving DecidableEq, Repr

/-- One registry slot, from clientResult: ExitStatus (a nilable
interface value, hence Option) and State. -/
structure ClientResult where
  exitStatus : Option WaitStatus
  state : ClientState
deriving DecidableEq, Repr

instance : Inhabited ClientResult := ⟨⟨none, .unknown⟩⟩

/-- From clientResult.Connected(): state is stateConnected or stateExited. -/
def ClientResult.Connected (c : ClientResult) : Bool :=
  c.state == .connected || c.state == .exited

/-- From clientResult.Exited(): state is stateExited. -/
def ClientResult.Exited (c : ClientResult) : Bool :=
  c.state == .exited

/-- The RunState enum returned by Status. -/
inductive RunState where
  | wait
  | go
  | interrupt
deriving DecidableEq, Repr

/-- Errors an RPC handler can return: rpc.ErrShutdown, the
"client id %d not found" / "unrecognized client id" errors, and the
"client id %d already registered" error. -/
inductive RpcError where
  | shutdown
  | unknownClient (id : Nat)
  | alreadyRegistered (id : Nat)
deriving DecidableEq, Repr

/-- Construction inputs consumed by New (the fields of Config the model
needs: ClientCount and AccessToken; SocketPath and the log sinks are
transport-level). -/
structure Config where
  clientCount : Nat
  accessToken : String
deriving Repr

/-- Runner state. started, done and interrupt are the once-only latch
channels (a closed channel is a fired latch). stdout is the byte
stream accumulated by the Stdout log sink. Note that New never
initializes the interrupt channel, so in a Runner built by New the
interrupt latch is unfired. -/
structure Runner where
  clients : List ClientResult
  startedFired : Bool
  doneFired : Bool
  interruptFired : Bool
  accessToken : String
  stdout : List Nat
deriving DecidableEq, Repr

/-- From New: a registry slot per id in 0 .. ClientCount-1, all latches
unfired, empty sink. -/
def New (c : Config) : Runner :=
  { clients := List.replicate c.clientCount ⟨none, .unknown⟩
    startedFired := false
    doneFired := false
    interruptFired := false
    accessToken := c.accessToken
    stdout := [] }

/-- From Runner.Terminate: fires the done latch (closedOnce keeps a
fired latch fired). -/
def Runner.Terminate (r : Runner) : Runner :=
  { r with doneFired := true }

/-- From Runner.Register. The result pairs the post-state with the
reply: the startedOnce.Do that closes the started channel runs BEFORE
the registry lookup and the duplicate check, so even a failing call
leaves the started latch fired. -/
def Runner.Register (r : Runner) (id : Nat) : Runner × Except RpcError String :=
  let r1 := { r with startedFired := true }
  match r1.clients[id]? with
  | none => (r1, .error (.unknownClient id))
  | some c =>
    if c.Connected then
      (r1, .error (.alreadyRegistered id))
    else
      ({ r1 with clients := r1.clients.set id { c with state := .connected } },
       .ok r.accessToken)

/-- From Runner.Exit: unconditionally records the wait-status and marks
the slot exited (no prior Register required), then fires done if every
slot is now exited. -/
def Runner.Exit (r : Runner) (id : Nat) (ws : WaitStatus) : Runner × Except RpcError Unit :=
  match r.clients[id]? with
  | none => (r, .error (.unknownClient id))
  | some _ =>
    let clients' := r.clients.set id ⟨some ws, .exited⟩
    let allExited := clients'.all fun c => c.state == .exited
    ({ r with clients := clients', doneFired := r.doneFired || allExited }, .ok ())

/-- From Runner.WriteLogs: io.Copy of the payload onto the Stdout sink.
The sink is modelled as an infallible byte accumulator; WriteLogs never
consults the done latch and never produces rpc.ErrShutdown. -/
def Runner.WriteLogs (r : Runner) (data : List Nat) : Runner × Except RpcError Unit :=
  ({ r with stdout := r.stdout ++ data }, .ok ())

/-- The per-slot check the range loop in Status's commandContainerID
case performs for registry key i: the command slot itself is skipped,
the checkout slot must be exited, every other slot must be connected. -/
def commandSlotOK (i : Nat) (c : ClientResult) : Bool :=
  if i = 1 then true
  else if i = 0 then c.Exited
  else c.Connected

/-- The loop over the registry in Status's commandContainerID case.
The Go loop breaks out early on the first failing slot and iterates the
map in arbitrary order; both are immaterial because the loop computes a
pure conjunction of per-slot checks. -/
def commandReadyAux : Nat → List ClientResult → Bool
  | _, [] => true
  | i, c :: cs => commandSlotOK i c && commandReadyAux (i + 1) cs

/-- From Runner.Status. Checks the done latch (shutdown error), then the
interrupt latch, then dispatches on the ID: checkoutContainerID = 0 is
always go; commandContainerID = 1 is go iff the registry loop finds
checkout exited and every sidecar connected; any other ID is looked up
in the registry and, when present, answered from the command and
checkout slots. Only the default branch can report an unknown client. -/
def Runner.Status (r : Runner) (id : Nat) : Except RpcError RunState :=
  if r.doneFired then .error .shutdown
  else if r.interruptFired then .ok .interrupt
  else if id = 0 then .ok .go
  else if id = 1 then
    .ok (if commandReadyAux 0 r.clients then .go else .wait)
  else if id < r.clients.length then
    if (r.clients.getD 1 default).Exited then .ok .interrupt
    else if (r.clients.getD 0 default).Exited then .ok .go
    else .ok .wait
  else .error (.unknownClient id)

/-- The guard c.ExitStatus != nil && c.ExitStatus.ExitStatus() != 0 on
the first return of Runner.WaitStatus: a recorded non-zero exit code. -/
def ClientResult.exitNonzero (c : ClientResult) : Bool :=
  match c.exitStatus with
  | some ws => ws.code != 0
  | none => false

/-- From Runner.WaitStatus. The Go code reads r.clients[0] and possibly
r.clients[1] from the registry map; a missing key yields a nil
*clientResult and the subsequent field access panics, which the model
records as none. some v is a normal return of the interface value v
(itself nil when the slot never exited). -/
def Runner.WaitStatus (r : Runner) : Option (Option WaitStatus) :=
  match r.clients[0]? with
  | none => none
  | some bootstrap =>
    if bootstrap.exitNonzero
    then some bootstrap.exitStatus
    else (r.clients[1]?).map (·.exitStatus)

/-- Whether the CHECKOUT slot holds a recorded non-zero exit code. -/
def checkoutFailed (r : Runner) : Bool :=
  (r.clients.getD 0 default).exitNonzero

/-- Client stub, from the Client struct: the participant ID and whether
a transport handle is live (c.client != nil). -/
structure Client where
  ID : Nat
  connected : Bool
deriving Repr

/-- Errors Client.Write can produce: errNotConnected, or an error from
the Runner.WriteLogs call. -/
inductive WriteError where
  | notConnected
  | rpc (e : RpcError)
deriving DecidableEq, Repr

/-- From Client.Write: reports errNotConnected on a nil handle; for an
ID that is neither checkoutContainerID nor commandContainerID it
returns (0, nil) without calling the Runner; otherwise it calls
Runner.WriteLogs and reports len(p) alongside the call's error. -/
def Client.Write (c : Client) (r : Runner) (p : List Nat) :
    (Nat × Option WriteError) × Runner :=
  if c.connected = false then ((0, some .notConnected), r)
  else if c.ID ≠ 0 ∧ c.ID ≠ 1 then ((0, none), r)
  else
    let (r', res) := r.WriteLogs p
    ((p.length, match res with | .ok _ => none | .error e => some (.rpc e)), r')

/-- From Client.AwaitRunState, with the successive Runner.Status replies
the loop would observe supplied as a list. some none models return nil
(success); some (some e) models returning the error e; none means the
reply list was exhausted with the loop still polling. -/
def AwaitRunState (desired : RunState) : List (Except RpcError RunState) → Option (Option RpcError)
  | [] => none
  | .error e :: _ =>
    if desired = .interrupt ∧ e = .shutdown then some none else some (some e)
  | .ok s :: rest =>
    if s = desired then some none else AwaitRunState desired rest

/-- A Register or Exit RPC, for reasoning about operation sequences. -/
inductive Op where
  | register (id : Nat)
  | exitOp (id : Nat) (ws : WaitStatus)
deriving DecidableEq, Repr

/-- State transformation of one RPC (the reply discarded). -/
def Runner.applyOp (r : Runner) : Op → Runner
  | .register id => (r.Register id).1
  | .exitOp id ws => (r.Exit id ws).1

/-- Runs a sequence of RPCs left to right. -/
def Runner.runOps (r : Runner) : List Op → Runner
  | [] => r
  | op :: ops => (r.applyOp op).runOps ops

/-- The Runner states along a run, the initial state included. -/
def Runner.runTrace (r : Runner) : List Op → List Runner
  | [] => [r]
  | op :: ops => r :: (r.applyOp op).runTrace ops

/-- State of slot i (the zero value of a missing slot, matching the
registry's fixed domain: slots are never added or removed). -/
def Runner.slotState (r : Runner) (i : Nat) : ClientState :=
  (r.clients.getD i default).state

/-- Position of a state in the Unknown, Connected, Exited progression. -/
def stateRank : ClientState → Nat
  | .unknown => 0
  | .connected => 1
  | .exited => 2

def collapseAux (prev : ClientState) : List ClientState → List ClientState
  | [] => []
  | b :: rest => if b = prev then collapseAux prev rest else b :: collapseAux b rest

/-- Removes adjacent duplicates, leaving the sequence of distinct states
a slot passes through. -/
def collapse : List ClientState → List ClientState
  | [] => []
  | a :: rest => a :: collapseAux a rest

/-- The sequence of distinct states slot i passes through while the ops
run from r. -/
def Runner.statesVisited (r : Runner) (ops : List Op) (i : Nat) : List ClientState :=
  collapse ((r.runTrace ops).map (fun s => s.slotState i))

/-- The RunState oracle as the specification words it, for comparison
with the Status implementation: CHECKOUT always go; COMMAND go iff
CHECKOUT is exited and every sidecar slot (id at least 2) is connected,
else wait; a sidecar sees interrupt if COMMAND is exited, else go if
CHECKOUT is exited, else wait. -/
def specRunState (r : Runner) (id : Nat) : RunState :=
  if id = 0 then .go
  else if id = 1 then
    if (r.clients.getD 0 default).Exited &&
        ((List.range r.clients.length).all fun i =>
          if 2 ≤ i then (r.clients.getD i default).Connected else true)
    then .go else .wait
  else
    if (r.clients.getD 1 default).Exited then .interrupt
    else if (r.clients.getD 0 default).Exited then .go
    else .wait

end Agent

deriving instance DecidableEq for Except

namespace Agent

/-- Two Booleans agreeing as propositions are equal. -/
theorem bool_eq_of_iff {a b : Bool} (h : a = true ↔ b = true) : a = b := by
  cases a <;> cases b <;> simp_all

/-- Reading a list at the freshly set index with a default. -/
theorem getD_set_self {α : Type} (l : List α) (i : Nat) (h : i < l.length) (v d : α) :
    (l.set i v).getD i d = v := by
  simp [List.getD_eq_getElem?_getD, List.getElem?_set_self (by simpa using h)]

/-- Reading a list at an index other than the one just set. -/
theorem getD_set_ne {α : Type} (l : List α) (i j : Nat) (h : i ≠ j) (v d : α) :
    (l.set i v).getD j d = l.getD j d := by
  simp [List.getD_eq_getElem?_getD, List.getElem?_set_ne h]

/-- The registry loop of the commandContainerID case of Status accepts
the suffix of the registry starting at index n exactly when every slot
of the suffix passes its per-index check. -/
theorem commandReadyAux_eq_true_iff (cs : List ClientResult) (n : Nat) :
    commandReadyAux n cs = true ↔
      ∀ j, j < cs.length → commandSlotOK (n + j) (cs.getD j default) = true := by
  induction cs generalizing n with
  | nil => simp [commandReadyAux]
  | cons c cs ih =>
    simp only [commandReadyAux, Bool.and_eq_true, ih, List.length_cons]
    constructor
    · rintro ⟨h0, hrest⟩ j hj
      cases j with
      | zero => simpa using h0
      | succ j =>
        have heq : n + (j + 1) = n + 1 + j := by omega
        rw [List.getD_cons_succ, heq]
        exact hrest j (by omega)
    · intro h
      refine ⟨by simpa using h 0 (by omega), fun j hj => ?_⟩
      have := h (j + 1) (by omega)
      rw [List.getD_cons_succ] at this
      have heq : n + 1 + j = n + (j + 1) := by omega
      rw [heq]
      exact this

/-- The registry loop of Status computes exactly the specification's
"CHECKOUT exited and all sidecars connected" condition, provided the
registry is non-empty (the COMMAND branch only runs with the COMMAND
slot present, so the registry has at least two slots there). -/
theorem commandReady_eq_spec (cs : List ClientResult) (h : 0 < cs.length) :
    commandReadyAux 0 cs =
      ((cs.getD 0 default).Exited &&
        ((List.range cs.length).all fun i =>
          if 2 ≤ i then (cs.getD i default).Connected else true)) := by
  apply bool_eq_of_iff
  rw [commandReadyAux_eq_true_iff]
  simp only [Bool.and_eq_true, List.all_eq_true, List.mem_range, Nat.zero_add]
  constructor
  · intro hall
    refine ⟨?_, fun i hi => ?_⟩
    · have := hall 0 h
      simpa [commandSlotOK] using this
    · by_cases h2 : 2 ≤ i
      · have := hall i hi
        have h1 : i ≠ 1 := by omega
        have h0 : i ≠ 0 := by omega
        simp only [commandSlotOK, h1, h0, if_false, if_pos h2] at this ⊢
        exact this
      · simp [if_neg h2]
  · rintro ⟨hex, hcon⟩ j hj
    by_cases hj0 : j = 0
    · subst hj0
      simpa [commandSlotOK] using hex
    · by_cases hj1 : j = 1
      · subst hj1
        simp [commandSlotOK]
      · have h2 : 2 ≤ j := by omega
        have := hcon j hj
        rw [if_pos h2] at this
        simp only [commandSlotOK, hj1, hj0, if_false]
        exact this

/-- C1: for every registry and every participant ID in it, when neither
the done latch nor the interrupt latch has fired, Status returns
exactly the value the RunState oracle of the specification prescribes:
go for CHECKOUT; for COMMAND, go iff CHECKOUT is exited and every
sidecar slot is connected, else wait; for a sidecar, interrupt if
COMMAND is exited, else go if CHECKOUT is exited, else wait. -/
theorem c1_status_matches_oracle (r : Runner) (id : Nat)
    (hd : r.doneFired = false) (hi : r.interruptFired = false)
    (hm : id < r.clients.length) :
    r.Status id = .ok (specRunState r id) := by
  unfold Runner.Status specRunState
  rw [hd, hi]
  by_cases h0 : id = 0
  · simp [h0]
  · by_cases h1 : id = 1
    · subst h1
      have hlen : 0 < r.clients.length := by omega
      simp [h0, commandReady_eq_spec r.clients hlen]
    · simp only [Bool.false_eq_true, if_false, if_neg h0, if_neg h1, if_pos hm]
      cases hE1 : (r.clients[1]?.getD default).Exited <;>
        cases hE0 : (r.clients[0]?.getD default).Exited <;>
          simp [hE1, hE0]

/-- Witness for C1 at the four-participant registry of the spec's first
scenario, polled by sidecar 2. -/
theorem c1_status_matches_oracle_witness :
    (New ⟨4, ""⟩).doneFired = false ∧ (New ⟨4, ""⟩).interruptFired = false ∧
      2 < (New ⟨4, ""⟩).clients.length ∧
      (New ⟨4, ""⟩).Status 2 = .ok (specRunState (New ⟨4, ""⟩) 2) :=
  ⟨rfl, rfl, by decide, c1_status_matches_oracle (New ⟨4, ""⟩) 2 rfl rfl (by decide)⟩

end Agent

namespace Agent

/-- C2: for every registry holding both the CHECKOUT and COMMAND slots,
WaitStatus returns (without panicking) the CHECKOUT slot's recorded
wait-status when the CHECKOUT slot's recorded exit code is non-zero and
the COMMAND slot's recorded wait-status otherwise, and the result is a
function of those two slots alone, so sidecar exit statuses never
affect it. -/
theorem c2_waitStatus_aggregation (r : Runner) (h2 : 2 ≤ r.clients.length) :
    (r.WaitStatus = some (if checkoutFailed r then (r.clients.getD 0 default).exitStatus
        else (r.clients.getD 1 default).exitStatus)) ∧
    (∀ r' : Runner, r'.clients[0]? = r.clients[0]? → r'.clients[1]? = r.clients[1]? →
      r'.WaitStatus = r.WaitStatus) := by
  have l0 : (0 : Nat) < r.clients.length := by omega
  have l1 : (1 : Nat) < r.clients.length := by omega
  obtain ⟨c0, h0⟩ : ∃ c, r.clients[0]? = some c := ⟨_, List.getElem?_eq_getElem l0⟩
  obtain ⟨c1, h1⟩ : ∃ c, r.clients[1]? = some c := ⟨_, List.getElem?_eq_getElem l1⟩
  have g0 : r.clients.getD 0 default = c0 := by simp [List.getD_eq_getElem?_getD, h0]
  have g1 : r.clients.getD 1 default = c1 := by simp [List.getD_eq_getElem?_getD, h1]
  constructor
  · unfold Runner.WaitStatus checkoutFailed
    rw [h0, h1, g0, g1]
    cases hf : c0.exitNonzero <;> simp [hf]
  · intro r' e0 e1
    unfold Runner.WaitStatus
    rw [e0, e1]

/-- Witness for C2 at a fresh two-participant registry: neither slot
has exited, so the aggregate is the COMMAND slot's nil status. -/
theorem c2_waitStatus_aggregation_witness :
    2 ≤ (New ⟨2, ""⟩).clients.length ∧ (New ⟨2, ""⟩).WaitStatus =
      some (if checkoutFailed (New ⟨2, ""⟩)
        then ((New ⟨2, ""⟩).clients.getD 0 default).exitStatus
        else ((New ⟨2, ""⟩).clients.getD 1 default).exitStatus) :=
  ⟨by decide, (c2_waitStatus_aggregation (New ⟨2, ""⟩) (by decide)).1⟩

/-- C3 counterexample: after the done latch has fired (here via
Terminate), Register, Exit and WriteLogs do not return a shutdown
error; Register and Exit even succeed and mutate the registry. -/
theorem c3_counterexample :
    (New ⟨2, "t"⟩).Terminate.doneFired = true ∧
    ((New ⟨2, "t"⟩).Terminate.Register 0).2 = .ok "t" ∧
    ((New ⟨2, "t"⟩).Terminate.Exit 0 ⟨0, none⟩).2 = .ok () ∧
    ((New ⟨2, "t"⟩).Terminate.WriteLogs [7]).2 = .ok () :=
  ⟨rfl, rfl, rfl, rfl⟩

/-- C3 (amended): after the done latch has fired, Status returns a
shutdown error on every ID, while Register, Exit and WriteLogs never
return a shutdown error: they do not consult the done latch at all. -/
theorem c3_amended_only_status_shuts_down (r : Runner) (hd : r.doneFired = true) :
    (∀ id, r.Status id = .error .shutdown) ∧
    (∀ id, (r.Register id).2 ≠ .error .shutdown) ∧
    (∀ id ws, (r.Exit id ws).2 ≠ .error .shutdown) ∧
    (∀ data, (r.WriteLogs data).2 ≠ .error .shutdown) := by
  refine ⟨fun id => by simp [Runner.Status, hd], fun id => ?_, fun id ws => ?_,
    fun data => by simp [Runner.WriteLogs]⟩
  · unfold Runner.Register
    cases h : ({ r with startedFired := true } : Runner).clients[id]? with
    | none => simp [h]
    | some c => cases hc : c.Connected <;> simp [h, hc]
  · unfold Runner.Exit
    cases h : r.clients[id]? with
    | none => simp [h]
    | some c => simp [h]

/-- Witness for C3 (amended) on a terminated two-slot Runner. -/
theorem c3_amended_witness :
    (New ⟨2, "t"⟩).Terminate.doneFired = true ∧
    (New ⟨2, "t"⟩).Terminate.Status 0 = .error .shutdown ∧
    ((New ⟨2, "t"⟩).Terminate.Register 1).2 ≠ .error .shutdown :=
  ⟨rfl, (c3_amended_only_status_shuts_down (New ⟨2, "t"⟩).Terminate rfl).1 0,
    (c3_amended_only_status_shuts_down (New ⟨2, "t"⟩).Terminate rfl).2.1 1⟩

end Agent

namespace Agent

/-- A slot whose Connected predicate is false is still in the initial
unknown state. -/
theorem state_unknown_of_not_connected {c : ClientResult} (h : c.Connected = false) :
    c.state = .unknown := by
  cases hc : c.state <;> simp [ClientResult.Connected, hc] at h ⊢

/-- A single Register or Exit RPC never lowers the rank of any slot's
state in the Unknown, Connected, Exited progression. -/
theorem stateRank_mono_applyOp (r : Runner) (op : Op) (i : Nat) :
    stateRank (r.slotState i) ≤ stateRank ((r.applyOp op).slotState i) := by
  cases op with
  | register id =>
    unfold Runner.applyOp Runner.Register Runner.slotState
    cases h : ({ r with startedFired := true } : Runner).clients[id]? with
    | none => simp [h]
    | some c =>
      cases hc : c.Connected with
      | true => simp [h, hc]
      | false =>
        simp only [h, hc, Bool.false_eq_true, if_false]
        by_cases hij : id = i
        · subst hij
          have hlen : id < r.clients.length := by
            have := List.getElem?_eq_some_iff.mp h
            simpa using this.1
          have hget : r.clients.getD id default = c := by
            simp only [List.getD_eq_getElem?_getD]
            simp at h
            simp [h]
          rw [getD_set_self _ _ hlen]
          rw [hget, state_unknown_of_not_connected hc]
          simp [stateRank]
        · rw [getD_set_ne _ _ _ hij]
  | exitOp id ws =>
    unfold Runner.applyOp Runner.Exit Runner.slotState
    cases h : r.clients[id]? with
    | none => simp [h]
    | some c =>
      simp only [h]
      by_cases hij : id = i
      · subst hij
        have hlen : id < r.clients.length := by
          have := List.getElem?_eq_some_iff.mp h
          simpa using this.1
        rw [getD_set_self _ _ hlen]
        cases hs : (r.clients.getD id default).state <;> simp [stateRank]
      · rw [getD_set_ne _ _ _ hij]

/-- The first Runner on a trace is the starting one. -/
theorem runTrace_head (r : Runner) (ops : List Op) :
    (r.runTrace ops).head? = some r := by
  cases ops <;> rfl

/-- C4 (amended): along every sequence of Register and Exit operations,
every slot's state moves monotonically forward in the Unknown,
Connected, Exited order — no operation moves a slot backwards. (The
original claim's stronger assertion, that a slot never reaches Exited
without first having been Connected, is refuted by the counterexample:
Exit works on a never-registered slot.) -/
theorem c4_amended_slot_states_monotone (r : Runner) (ops : List Op) (i : Nat) :
    List.Chain' (fun a b => stateRank (a.slotState i) ≤ stateRank (b.slotState i))
      (r.runTrace ops) := by
  induction ops generalizing r with
  | nil => simp [Runner.runTrace]
  | cons op ops ih =>
    unfold Runner.runTrace
    rw [List.chain'_cons']
    refine ⟨fun b hb => ?_, ih (r.applyOp op)⟩
    rw [runTrace_head] at hb
    cases hb
    exact stateRank_mono_applyOp r op i

/-- C4 counterexample: on a one-slot registry, a single Exit takes the
CHECKOUT slot straight from Unknown to Exited, so the sequence of
states the slot passes through is not a prefix of Unknown, Connected,
Exited. -/
theorem c4_counterexample :
    (New ⟨1, ""⟩).statesVisited [.exitOp 0 ⟨0, none⟩] 0 = [.unknown, .exited] ∧
    ¬ ([ClientState.unknown, .exited] <+: [.unknown, .connected, .exited]) :=
  ⟨by decide, by decide⟩

/-- C5 counterexample: Register on an unknown ID fails, yet it fires the
started latch, which before the call was unfired — so started fires
even though no successful Register has ever happened. -/
theorem c5_counterexample :
    (New ⟨1, ""⟩).startedFired = false ∧
    ((New ⟨1, ""⟩).Register 5).2 = .error (.unknownClient 5) ∧
    ((New ⟨1, ""⟩).Register 5).1.startedFired = true :=
  ⟨rfl, rfl, rfl⟩

/-- C5 (amended): the started latch fires on any Register call,
successful or not (the startedOnce.Do precedes the ID and duplicate
checks), and once fired it stays fired across any further Register or
Exit operation. -/
theorem c5_amended_started_on_any_register :
    (∀ (r : Runner) (id : Nat), ((r.Register id).1).startedFired = true) ∧
    (∀ (r : Runner) (op : Op), r.startedFired = true →
      (r.applyOp op).startedFired = true) := by
  constructor
  · intro r id
    unfold Runner.Register
    cases h : ({ r with startedFired := true } : Runner).clients[id]? with
    | none => simp [h]
    | some c => cases hc : c.Connected <;> simp [h, hc]
  · intro r op hs
    cases op with
    | register id =>
      unfold Runner.applyOp Runner.Register
      cases h : ({ r with startedFired := true } : Runner).clients[id]? with
      | none => simp [h]
      | some c => cases hc : c.Connected <;> simp [h, hc]
    | exitOp id ws =>
      unfold Runner.applyOp Runner.Exit
      cases h : r.clients[id]? with
      | none => simpa [h] using hs
      | some c => simpa [h] using hs

/-- Witness for C5 (amended): a successful Register fires started, and
the latch survives a subsequent Exit. -/
theorem c5_amended_witness :
    (((New ⟨1, ""⟩).Register 0).1).startedFired = true ∧
    ((((New ⟨1, ""⟩).Register 0).1).applyOp (.exitOp 0 ⟨0, none⟩)).startedFired = true :=
  ⟨c5_amended_started_on_any_register.1 (New ⟨1, ""⟩) 0,
    c5_amended_started_on_any_register.2 ((New ⟨1, ""⟩).Register 0).1 (.exitOp 0 ⟨0, none⟩)
      (c5_amended_started_on_any_register.1 (New ⟨1, ""⟩) 0)⟩

end Agent

namespace Agent

/-- C6 (code bug): with participant count 1 only the CHECKOUT slot
exists; after Exit(CHECKOUT) with exit code 0, WaitStatus dereferences
the missing COMMAND slot — a nil-pointer panic, modelled as none —
instead of returning CHECKOUT's recorded status. With a non-zero
checkout code the early return avoids the missing slot and CHECKOUT's
status is returned as the claim prescribes. -/
theorem c6_bug_waitStatus_panics_with_one_client :
    (New ⟨1, ""⟩).clients.length = 1 ∧
    ((New ⟨1, ""⟩).Exit 0 ⟨0, none⟩).2 = .ok () ∧
    ((New ⟨1, ""⟩).Exit 0 ⟨0, none⟩).1.WaitStatus = none ∧
    ((New ⟨1, ""⟩).Exit 0 ⟨1, none⟩).1.WaitStatus = some (some ⟨1, none⟩) :=
  ⟨rfl, rfl, by decide, by decide⟩

/-- C7 (code bug): a Write on a connected sidecar stub (ID 2) with a
one-byte buffer returns byte count 0 — not the full buffer length the
claim (and the io.Writer contract) requires — with no error, and the
Runner, its log sink included, is untouched. -/
theorem c7_bug_sidecar_write_reports_zero :
    (Client.Write ⟨2, true⟩ (New ⟨3, ""⟩) [42]).1 = (0, none) ∧
    (Client.Write ⟨2, true⟩ (New ⟨3, ""⟩) [42]).2 = New ⟨3, ""⟩ ∧
    ([42] : List Nat).length = 1 :=
  ⟨rfl, rfl, rfl⟩

/-- C8 counterexample: with participant count 1 the ID COMMAND = 1 is
not in the registry, yet Status(1) does not fail — the commandContainerID
switch case never consults the registry for the caller's own ID and
answers Wait. -/
theorem c8_counterexample :
    (New ⟨1, ""⟩).clients.length = 1 ∧ (New ⟨1, ""⟩).Status 1 = .ok .wait :=
  ⟨rfl, by decide⟩

/-- C8 (amended): while neither the done nor the interrupt latch has
fired, Status fails with an unknown-client error exactly for the
out-of-registry IDs greater than or equal to 2; the reserved IDs
CHECKOUT = 0 and COMMAND = 1 are answered without a registry-membership
check even when the configured participant count excludes them. -/
theorem c8_amended_unknown_id_errors (r : Runner)
    (hd : r.doneFired = false) (hi : r.interruptFired = false) :
    (∀ id, 2 ≤ id → r.clients.length ≤ id →
      r.Status id = .error (.unknownClient id)) ∧
    r.Status 0 = .ok .go ∧
    (r.Status 1 = .ok .go ∨ r.Status 1 = .ok .wait) := by
  refine ⟨fun id h2 hlen => ?_, ?_, ?_⟩
  · unfold Runner.Status
    simp [hd, hi, show id ≠ 0 by omega, show id ≠ 1 by omega,
      show ¬id < r.clients.length by omega]
  · simp [Runner.Status, hd, hi]
  · unfold Runner.Status
    simp only [hd, hi, Bool.false_eq_true, if_false, one_ne_zero, if_true]
    cases commandReadyAux 0 r.clients <;> simp

/-- Witness for C8 (amended) on a one-slot registry probed at ID 5. -/
theorem c8_amended_witness :
    (New ⟨1, ""⟩).clients.length ≤ 5 ∧
    (New ⟨1, ""⟩).Status 5 = .error (.unknownClient 5) :=
  ⟨by decide, (c8_amended_unknown_id_errors (New ⟨1, ""⟩) rfl rfl).1 5 (by decide) (by decide)⟩

/-- C9: for any run of AwaitRunState whose earlier polls were all
non-matching successful statuses, the call returns success as soon as a
poll returns the desired state; a poll failing with the shutdown error
yields success when the desired state is Interrupt; and any other
failing poll propagates its error to the caller. -/
theorem c9_awaitRunState (desired : RunState) (pre rest : List (Except RpcError RunState))
    (hpre : ∀ p ∈ pre, ∃ s, p = .ok s ∧ s ≠ desired) :
    (AwaitRunState desired (pre ++ .ok desired :: rest) = some none) ∧
    (desired = .interrupt →
      AwaitRunState desired (pre ++ .error .shutdown :: rest) = some none) ∧
    (∀ e : RpcError, ¬(desired = .interrupt ∧ e = .shutdown) →
      AwaitRunState desired (pre ++ .error e :: rest) = some (some e)) := by
  induction pre with
  | nil =>
    refine ⟨by simp [AwaitRunState], fun h => ?_, fun e he => ?_⟩
    · subst h
      simp [AwaitRunState]
    · simp [AwaitRunState, he]
  | cons p pre ih =>
    obtain ⟨s, rfl, hs⟩ := hpre p (List.mem_cons_self p pre)
    have ih' := ih fun q hq => hpre q (List.mem_cons_of_mem _ hq)
    simpa [AwaitRunState, hs] using ih'

/-- Witness for C9: the shutdown-while-awaiting-Interrupt success, the
immediate match, and the propagation of an unknown-client error. -/
theorem c9_awaitRunState_witness :
    AwaitRunState .interrupt [.error .shutdown] = some none ∧
    AwaitRunState .go [.ok .go] = some none ∧
    AwaitRunState .go [.error (.unknownClient 7)] = some (some (.unknownClient 7)) :=
  ⟨(c9_awaitRunState .interrupt [] [] (fun p hp => absurd hp (List.not_mem_nil p))).2.1 rfl,
   (c9_awaitRunState .go [] [] (fun p hp => absurd hp (List.not_mem_nil p))).1,
   (c9_awaitRunState .go [] [] (fun p hp => absurd hp (List.not_mem_nil p))).2.2
     (.unknownClient 7) (by decide)⟩

/-- C10: Exit on any registry ID succeeds whatever the slot's prior
state — no prior Register needed, repeats included — re-recording the
given wait-status and leaving the started latch alone; consequently,
exiting every slot of a fresh four-participant Runner fires the done
latch with the started latch never having fired. -/
theorem c10_exit_needs_no_register (r : Runner) (id : Nat) (ws : WaitStatus)
    (h : id < r.clients.length) :
    ((r.Exit id ws).2 = .ok () ∧
     (r.Exit id ws).1.clients.getD id default = ⟨some ws, .exited⟩ ∧
     (r.Exit id ws).1.startedFired = r.startedFired) ∧
    (((New ⟨4, ""⟩).runOps [.exitOp 0 ⟨0, none⟩, .exitOp 1 ⟨0, none⟩,
        .exitOp 2 ⟨0, none⟩, .exitOp 3 ⟨0, none⟩]).doneFired = true ∧
     ((New ⟨4, ""⟩).runOps [.exitOp 0 ⟨0, none⟩, .exitOp 1 ⟨0, none⟩,
        .exitOp 2 ⟨0, none⟩, .exitOp 3 ⟨0, none⟩]).startedFired = false) := by
  refine ⟨?_, by decide, by decide⟩
  have hsome : r.clients[id]? = some r.clients[id] := List.getElem?_eq_getElem h
  unfold Runner.Exit
  rw [hsome]
  exact ⟨rfl, getD_set_self _ _ h _ _, rfl⟩

/-- Witness for C10: a first Exit on the never-registered CHECKOUT slot
of a fresh two-participant Runner succeeds. -/
theorem c10_exit_needs_no_register_witness :
    0 < (New ⟨2, ""⟩).clients.length ∧
    ((New ⟨2, ""⟩).Exit 0 ⟨3, none⟩).2 = .ok () :=
  ⟨by decide, ((c10_exit_needs_no_register (New ⟨2, ""⟩) 0 ⟨3, none⟩ (by decide)).1).1⟩

end Agent
